import Mathlib

/-!
Shallow embedding of `src/generate_attractions.py` (repository wubbyweb/fun4kids).

The script calls a chat-completion API, parses the response body as JSON,
normalizes the parsed value to a list of attraction records truncated to the
requested count, prints a Markdown table and saves a CSV.

Modelling choices:
* A Python value produced by `json.loads` is modelled by the inductive `Json`.
* `json.loads` itself is Python standard library, not repository code, so a
  response body is represented by its parse result: `Option Json`, where
  `none` means the body is not valid JSON (a `json.JSONDecodeError`).
* Python's dynamic-typing failures (`AttributeError` from `.get` on a
  non-dict, `TypeError` from `len`/slicing/indexing on unsuitable values,
  `KeyError` from a missing dict key) are modelled explicitly by `PyErr`,
  and fallible steps return `Except PyErr _`.
* Effects of `generate_attractions_list` that the specification talks about
  (constructing the network client, issuing the request, emitting the
  under-delivery warning) are recorded as booleans in `GenResult`.
-/

/-- A JSON value, as produced by Python's `json.loads`. -/
inductive Json where
  | null
  | bool (b : Bool)
  | num (x : Int)
  | str (s : String)
  | arr (elems : List Json)
  | obj (fields : List (String × Json))
deriving Repr, Inhabited

/-- Python exceptions that the embedded code can raise. -/
inductive PyErr where
  /-- `ValueError`, raised at line 27 when the API key is missing/empty. -/
  | valueError
  /-- `json.JSONDecodeError`, re-raised at line 81. -/
  | jsonDecodeError
  /-- `AttributeError`, e.g. `.get` on a value that is not a dict (line 76). -/
  | attributeError
  /-- `TypeError`, e.g. `len()` or slicing on an unsuitable value. -/
  | typeError
  /-- `KeyError`, a missing dict key under `[...]` subscription (line 112). -/
  | keyError
deriving Repr, DecidableEq

/-- Python `dict.get` on the association list backing a JSON object. -/
def dictGet (fields : List (String × Json)) (key : String) : Option Json :=
  match fields with
  | [] => none
  | (k, v) :: rest => if k = key then some v else dictGet rest key

/-- Python `len(v)`: defined for strings, lists and dicts, `TypeError`
otherwise. -/
def pyLen : Json → Except PyErr Nat
  | .str s => .ok s.length
  | .arr xs => .ok xs.length
  | .obj fs => .ok fs.length
  | _ => .error .typeError

/-- Python slice `v[:n]`: defined for strings and lists, `TypeError`
otherwise (in particular a dict is not sliceable). -/
def pySlice (v : Json) (n : Nat) : Except PyErr Json :=
  match v with
  | .str s => .ok (.str (s.take n))
  | .arr xs => .ok (.arr (xs.take n))
  | _ => .error .typeError

/-- Python subscription `v[key]` with a string key: a dict lookup that
raises `KeyError` when the key is absent and `TypeError` on non-dicts. -/
def pySubscript (v : Json) (key : String) : Except PyErr Json :=
  match v with
  | .obj fs =>
    match dictGet fs key with
    | some x => .ok x
    | none => .error .keyError
  | _ => .error .typeError

/-- Outcome of one invocation of `generate_attractions_list`, together with
the effects the specification mentions. -/
structure GenResult where
  /-- Whether the `openai.OpenAI` client was constructed (line 30). -/
  clientConstructed : Bool
  /-- Whether the chat-completion request was issued (line 54). -/
  networkCalled : Bool
  /-- Whether the under-delivery warning was printed (line 84). -/
  warned : Bool
  /-- The returned value (normally a `Json.arr` of records), or the raised
  exception. -/
  result : Except PyErr Json
deriving Repr

/--
`generate_attractions_list` from `src/generate_attractions.py`, lines 14-87.

Parameters of the model:
* `num_attractions` — the requested count (source default 100);
* `xai_api_key` — the value of `os.getenv('XAI_API_KEY')` (`none` when the
  environment variable is absent);
* `response_parse` — the result of `json.loads` applied to the response
  body `response.choices[0].message.content` (`none` when the body is not
  valid JSON).

Control flow mirrors the source: the key check at line 26 (`not
os.getenv(...)` is true exactly when the variable is absent or the empty
string) raises before the client is built; a parse failure is re-raised at
line 81; shape dispatch is lines 73-76; `len` is first taken at line 77
(inside the `try`, but a `TypeError`/`AttributeError` is not caught by the
`except json.JSONDecodeError` handler); the warning is line 83-84 and the
truncation `attractions_list[:num_attractions]` is line 87.
-/
def generate_attractions_list (num_attractions : Nat)
    (xai_api_key : Option String) (response_parse : Option Json) : GenResult :=
  if xai_api_key.getD "" = "" then
    { clientConstructed := false, networkCalled := false, warned := false
      result := .error .valueError }
  else
    match response_parse with
    | none =>
      { clientConstructed := true, networkCalled := true, warned := false
        result := .error .jsonDecodeError }
    | some generated_json =>
      let attractions_list? : Except PyErr Json :=
        match generated_json with
        | .arr _ => .ok generated_json
        | .obj fields => .ok ((dictGet fields "attractions").getD (.arr []))
        | _ => .error .attributeError
      match attractions_list? with
      | .error e =>
        { clientConstructed := true, networkCalled := true, warned := false
          result := .error e }
      | .ok attractions_list =>
        match pyLen attractions_list with
        | .error e =>
          { clientConstructed := true, networkCalled := true, warned := false
            result := .error e }
        | .ok len =>
          let warned := decide (len < num_attractions)
          match pySlice attractions_list num_attractions with
          | .error e =>
            { clientConstructed := true, networkCalled := true
              warned := warned, result := .error e }
          | .ok truncated =>
            { clientConstructed := true, networkCalled := true
              warned := warned, result := .ok truncated }

/-- A line printed by `print_table`. A data row is represented by its index
and the three field values looked up from the record. -/
inductive TableLine where
  | msg (s : String)
  | header
  | separator
  | row (i : Nat) (name address description : Json)
deriving Repr

/-- The row loop of `print_table` (line 111-112): `enumerate(attractions, 1)`
with each row subscripting `name`, `address` and `description`. -/
def print_rows : Nat → List Json → Except PyErr (List TableLine)
  | _, [] => .ok []
  | i, attr :: rest => do
    let name ← pySubscript attr "name"
    let address ← pySubscript attr "address"
    let description ← pySubscript attr "description"
    let tail ← print_rows (i + 1) rest
    .ok (.row i name address description :: tail)

/-- `print_table` from `src/generate_attractions.py`, lines 101-112, as the
sequence of lines it prints (or the exception it raises). -/
def print_table (attractions : List Json) : Except PyErr (List TableLine) :=
  if attractions.isEmpty then
    .ok [.msg "No attractions to display."]
  else do
    let rows ← print_rows 1 attractions
    .ok (.header :: .separator :: rows)

/-- The `__main__` flow (lines 115-128) restricted to persistence: the CSV
is written by `save_to_csv` only after `generate_attractions_list` returns
normally; a raised exception aborts the run with nothing persisted.
Returns the value handed to `save_to_csv`, or `none` when the run aborts. -/
def main_persisted (xai_api_key : Option String)
    (response_parse : Option Json) : Option Json :=
  match (generate_attractions_list 100 xai_api_key response_parse).result with
  | .ok attractions => some attractions
  | .error _ => none

/-! ## Theorems for the claims -/

/-- Helper: a successful Python slice of any value to `n` elements yields a
list of length at most `n` whenever the result is a list. -/
theorem pySlice_ok_arr_length_le (v : Json) (n : Nat) (ys : List Json)
    (h : pySlice v n = .ok (.arr ys)) : ys.length ≤ n := by
  cases v <;> simp [pySlice] at h
  subst h
  simp [List.length_take]

/-- C1: if the `XAI_API_KEY` environment credential is absent or the empty
string, `generate_attractions_list` raises `ValueError` and neither
constructs the network client nor issues a request. -/
theorem missing_key_fails_before_network (n : Nat) (key : Option String)
    (resp : Option Json) (h : key = none ∨ key = some "") :
    (generate_attractions_list n key resp).result = .error .valueError ∧
    (generate_attractions_list n key resp).clientConstructed = false ∧
    (generate_attractions_list n key resp).networkCalled = false := by
  rcases h with h | h <;> subst h <;>
    simp [generate_attractions_list, Option.getD]

/-- Witness for C1 at `n = 5`, key absent, response irrelevant. -/
theorem missing_key_fails_before_network_witness :
    (generate_attractions_list 5 none (some (.arr []))).result
        = .error .valueError ∧
    (generate_attractions_list 5 none (some (.arr []))).clientConstructed
        = false ∧
    (generate_attractions_list 5 none (some (.arr []))).networkCalled
        = false :=
  missing_key_fails_before_network 5 none (some (.arr [])) (Or.inl rfl)

/-- C2: a list response with more than `n` elements is truncated to exactly
the first `n` elements, in order. -/
theorem overfull_list_truncated_to_n (n : Nat) (key : String) (hk : key ≠ "")
    (xs : List Json) (h : n < xs.length) :
    (generate_attractions_list n (some key) (some (.arr xs))).result
        = .ok (.arr (xs.take n)) ∧
    (xs.take n).length = n := by
  constructor
  · simp [generate_attractions_list, hk, pyLen, pySlice]
  · simp [List.length_take]
    exact Nat.le_of_lt h

/-- Witness for C2: `n = 2`, a three-element list. -/
theorem overfull_list_truncated_to_n_witness :
    (generate_attractions_list 2 (some "k")
        (some (.arr [.num 1, .num 2, .num 3]))).result
      = .ok (.arr [.num 1, .num 2]) ∧
    ([Json.num 1, Json.num 2, Json.num 3].take 2).length = 2 :=
  overfull_list_truncated_to_n 2 "k" (by decide) [.num 1, .num 2, .num 3]
    (by decide)

/-- C3: a list response with fewer than `n` elements is returned unchanged
(no padding), the under-delivery warning is emitted, and no exception is
raised. -/
theorem under_delivery_warns_no_pad (n : Nat) (key : String) (hk : key ≠ "")
    (xs : List Json) (h : xs.length < n) :
    (generate_attractions_list n (some key) (some (.arr xs))).result
        = .ok (.arr xs) ∧
    (generate_attractions_list n (some key) (some (.arr xs))).warned
        = true := by
  constructor
  · simp [generate_attractions_list, hk, pyLen, pySlice]
    exact Nat.le_of_lt h
  · simp [generate_attractions_list, hk, pyLen, pySlice]
    exact h

/-- Witness for C3: `n = 4`, a two-element list. -/
theorem under_delivery_warns_no_pad_witness :
    (generate_attractions_list 4 (some "k")
        (some (.arr [.null, .null]))).result = .ok (.arr [.null, .null]) ∧
    (generate_attractions_list 4 (some "k")
        (some (.arr [.null, .null]))).warned = true :=
  under_delivery_warns_no_pad 4 "k" (by decide) [.null, .null] (by decide)

/-- C4: a list response with exactly `n` elements is returned whole: same
length, same order, every record (hence its `name`, `address` and
`description` fields) passed through verbatim, with no warning. -/
theorem exact_list_passed_verbatim (n : Nat) (key : String) (hk : key ≠ "")
    (xs : List Json) (h : xs.length = n) :
    (generate_attractions_list n (some key) (some (.arr xs))).result
        = .ok (.arr xs) := by
  simp [generate_attractions_list, hk, pyLen, pySlice]
  exact Nat.le_of_eq h

/-- Witness for C4: `n = 2`, a two-element list of records. -/
theorem exact_list_passed_verbatim_witness :
    (generate_attractions_list 2 (some "k")
        (some (.arr [.obj [("name", .str "Zilker Park")],
                     .obj [("name", .str "Thinkery")]]))).result
      = .ok (.arr [.obj [("name", .str "Zilker Park")],
                   .obj [("name", .str "Thinkery")]]) :=
  exact_list_passed_verbatim 2 "k" (by decide) _ (by decide)

/-- C5: an object response is normalized through its `"attractions"` key:
if the key holds a list, that list truncated to `n` is returned; if the key
is absent, the empty sequence is returned rather than failing. -/
theorem keyed_object_uses_attractions_key (n : Nat) (key : String)
    (hk : key ≠ "") (fields : List (String × Json)) :
    (∀ xs : List Json, dictGet fields "attractions" = some (.arr xs) →
      (generate_attractions_list n (some key) (some (.obj fields))).result
        = .ok (.arr (xs.take n))) ∧
    (dictGet fields "attractions" = none →
      (generate_attractions_list n (some key) (some (.obj fields))).result
        = .ok (.arr [])) := by
  constructor
  · intro xs hxs
    simp [generate_attractions_list, hk, hxs, pyLen, pySlice]
  · intro habs
    simp [generate_attractions_list, hk, habs, pyLen, pySlice]

/-- Witness for C5: key present with a 3-element list and `n = 2`; key
absent. -/
theorem keyed_object_uses_attractions_key_witness :
    (generate_attractions_list 2 (some "k")
        (some (.obj [("attractions", .arr [.num 1, .num 2, .num 3])]))).result
      = .ok (.arr [.num 1, .num 2]) ∧
    (generate_attractions_list 2 (some "k")
        (some (.obj [("other", .null)]))).result = .ok (.arr []) :=
  ⟨(keyed_object_uses_attractions_key 2 "k" (by decide)
      [("attractions", .arr [.num 1, .num 2, .num 3])]).1
      [.num 1, .num 2, .num 3] rfl,
   (keyed_object_uses_attractions_key 2 "k" (by decide)
      [("other", .null)]).2 rfl⟩

/-- C6: a response body that is not valid JSON makes
`generate_attractions_list` raise the JSON-decode error; no attraction
sequence is returned and the `__main__` flow persists nothing to CSV. -/
theorem invalid_json_raises_decode_error (n : Nat) (key : String)
    (hk : key ≠ "") :
    (generate_attractions_list n (some key) none).result
        = .error .jsonDecodeError ∧
    main_persisted (some key) none = none := by
  constructor
  · simp [generate_attractions_list, hk]
  · simp [main_persisted, generate_attractions_list, hk]

/-- Witness for C6 at `n = 7`, key `"k"`. -/
theorem invalid_json_raises_decode_error_witness :
    (generate_attractions_list 7 (some "k") none).result
        = .error .jsonDecodeError ∧
    main_persisted (some "k") none = none :=
  invalid_json_raises_decode_error 7 "k" (by decide)

/-- C7: whenever `generate_attractions_list` returns a list of records
normally, its length is at most the requested count `n`. -/
theorem returned_length_le_requested (n : Nat) (key : Option String)
    (resp : Option Json) (ys : List Json)
    (h : (generate_attractions_list n key resp).result = .ok (.arr ys)) :
    ys.length ≤ n := by
  unfold generate_attractions_list at h
  split at h
  · simp at h
  · split at h
    · simp at h
    · dsimp only at h
      split at h
      · simp at h
      · split at h
        · simp at h
        · split at h
          · simp at h
          · rename_i truncated htrunc
            simp only [Except.ok.injEq] at h
            subst h
            exact pySlice_ok_arr_length_le _ _ _ htrunc

/-- Witness for C7: `n = 1` with a two-element list response yields a
one-element result. -/
theorem returned_length_le_requested_witness :
    [Json.null].length ≤ 1 :=
  returned_length_le_requested 1 (some "k") (some (.arr [.null, .null]))
    [.null] (by simp [generate_attractions_list, pyLen, pySlice])

/-- C8: a valid-JSON response that is neither an array nor an object (bare
string, number, boolean or null) makes `generate_attractions_list` raise
`AttributeError` from `.get` on the value — a failure that the
`except json.JSONDecodeError` handler does not catch, so it is not reported
as the malformed-response error. -/
theorem scalar_json_raises_attribute_error (n : Nat) (key : String)
    (hk : key ≠ "") (j : Json)
    (hj : j = .null ∨ (∃ b, j = .bool b) ∨ (∃ x, j = .num x) ∨
          (∃ s, j = .str s)) :
    (generate_attractions_list n (some key) (some j)).result
        = .error .attributeError ∧
    (generate_attractions_list n (some key) (some j)).result
        ≠ .error .jsonDecodeError := by
  have hres : (generate_attractions_list n (some key) (some j)).result
      = .error .attributeError := by
    rcases hj with h | ⟨b, h⟩ | ⟨x, h⟩ | ⟨s, h⟩ <;> subst h <;>
      simp [generate_attractions_list, hk]
  refine ⟨hres, ?_⟩
  rw [hres]
  simp

/-- Witness for C8: `n = 3`, the bare JSON string `"not a list"`. -/
theorem scalar_json_raises_attribute_error_witness :
    (generate_attractions_list 3 (some "k")
        (some (.str "not a list"))).result = .error .attributeError ∧
    (generate_attractions_list 3 (some "k")
        (some (.str "not a list"))).result ≠ .error .jsonDecodeError :=
  scalar_json_raises_attribute_error 3 "k" (by decide) (.str "not a list")
    (Or.inr (Or.inr (Or.inr ⟨"not a list", rfl⟩)))

/-- C9: on the empty sequence `print_table` prints exactly
"No attractions to display." and returns normally, touching no element's
keys; the per-row field lookups are reached only on non-empty input — shown
concretely by a one-element list whose record lacks the keys, which raises
`KeyError`. -/
theorem print_table_empty_no_field_access :
    print_table [] = .ok [.msg "No attractions to display."] ∧
    print_table [.obj []] = .error .keyError :=
  ⟨rfl, rfl⟩

/-- C10: the normalization is deterministic — the result of
`generate_attractions_list` depends only on the parsed response and the
requested count `n`, not on which (non-empty) credential was supplied; with
literally identical inputs the outcome is identical. -/
theorem normalization_depends_only_on_response (n : Nat) (k1 k2 : String)
    (h1 : k1 ≠ "") (h2 : k2 ≠ "") (resp : Option Json) :
    (generate_attractions_list n (some k1) resp).result
      = (generate_attractions_list n (some k2) resp).result := by
  simp [generate_attractions_list, h1, h2]

/-- Witness for C10: two different non-empty keys, same response. -/
theorem normalization_depends_only_on_response_witness :
    (generate_attractions_list 2 (some "key-one")
        (some (.arr [.null]))).result
      = (generate_attractions_list 2 (some "key-two")
        (some (.arr [.null]))).result :=
  normalization_depends_only_on_response 2 "key-one" "key-two"
    (by decide) (by decide) (some (.arr [.null]))
